import Mathlib

/-!
# Verification of the yilai translator client

A shallow embedding, in Lean 4, of the signed-request client for the Youdao
translation / OCR HTTP API (`translator.py`) and of the single-instance
startup coordination (`main.py`), together with theorems settling the
specification's claims about them.

Conventions of the embedding:

* Python strings are Lean `String`s (sequences of Unicode code points);
  `len`, slicing and concatenation act on code points exactly as in Python.
* `hashlib.sha256(...).hexdigest()` is embedded as a complete SHA-256
  implementation over byte lists (`sha256hex`), with bytes and 32-bit words
  as `Nat` reduced mod `2^8` / `2^32`; `str.encode("utf-8")` is the standard
  UTF-8 encoder `utf8Bytes`.
* The network is an explicit parameter: a function from the request
  parameters to an outcome (`NetOutcome`), whose constructors are the
  exception cases the Python `try` block distinguishes (a parsed JSON body,
  `requests.exceptions.Timeout`, other `requests.exceptions.RequestException`
  with its rendered cause, and `json.JSONDecodeError`).
* JSON response bodies are embedded as structures whose fields are `Option`s
  (`none` = key absent), mirroring exactly the keys the code reads with
  `dict.get`.
* `fcntl.flock(..., LOCK_EX | LOCK_NB)` and the signal files are embedded as
  a small state (`SysState`): acquisition is a total function, so the
  non-blocking / immediate character of `LOCK_NB` is built in.
-/

/-! ## Bytes, UTF-8 and SHA-256 (model of `hashlib.sha256(...).hexdigest()`) -/

/-- UTF-8 encoding of a single Unicode code point, as bytes (each a `Nat`
below 256). Standard RFC 3629 encoding, the same as Python's
`str.encode("utf-8")` on the characters Lean's `Char` admits. -/
def charUtf8 (c : Char) : List Nat :=
  let n := c.toNat
  if n < 0x80 then [n]
  else if n < 0x800 then [0xC0 + n / 64, 0x80 + n % 64]
  else if n < 0x10000 then
    [0xE0 + n / 4096, 0x80 + (n / 64) % 64, 0x80 + n % 64]
  else
    [0xF0 + n / 262144, 0x80 + (n / 4096) % 64, 0x80 + (n / 64) % 64,
     0x80 + n % 64]

/-- UTF-8 byte sequence of a string: model of Python's
`s.encode("utf-8")`. -/
def utf8Bytes (s : String) : List Nat :=
  (s.data.map charUtf8).flatten

/-- 32-bit truncation. -/
def w32 (n : Nat) : Nat := n % 4294967296

/-- Right rotation of a 32-bit word by `k` places. -/
def rotr (k x : Nat) : Nat := x / 2 ^ k + x % 2 ^ k * 2 ^ (32 - k)

/-- Bitwise complement within 32 bits (the argument is assumed `< 2^32`). -/
def wnot (x : Nat) : Nat := 4294967295 - x

/-- The SHA-256 round constants. -/
def shaK : List Nat :=
  [1116352408, 1899447441, 3049323471, 3921009573, 961987163,
   1508970993, 2453635748, 2870763221, 3624381080, 310598401,
   607225278, 1426881987, 1925078388, 2162078206, 2614888103,
   3248222580, 3835390401, 4022224774, 264347078, 604807628,
   770255983, 1249150122, 1555081692, 1996064986, 2554220882,
   2821834349, 2952996808, 3210313671, 3336571891, 3584528711,
   113926993, 338241895, 666307205, 773529912, 1294757372,
   1396182291, 1695183700, 1986661051, 2177026350, 2456956037,
   2730485921, 2820302411, 3259730800, 3345764771, 3516065817,
   3600352804, 4094571909, 275423344, 430227734, 506948616,
   659060556, 883997877, 958139571, 1322822218, 1537002063,
   1747873779, 1955562222, 2024104815, 2227730452, 2361852424,
   2428436474, 2756734187, 3204031479, 3329325298]

/-- The eight-word SHA-256 hash state. -/
structure Sha256State where
  a : Nat
  b : Nat
  c : Nat
  d : Nat
  e : Nat
  f : Nat
  g : Nat
  h : Nat
deriving DecidableEq, Repr

/-- The SHA-256 initial hash value. -/
def shaInit : Sha256State :=
  ⟨1779033703, 3144134277, 1013904242, 2773480762,
   1359893119, 2600822924, 528734635, 1541459225⟩

/-- SHA-256 message padding: append the `0x80` byte, zeros to 56 mod 64,
then the bit length as 8 big-endian bytes. -/
def shaPad (msg : List Nat) : List Nat :=
  let l := msg.length
  let zeros := (119 - l % 64) % 64
  msg ++ [0x80] ++ List.replicate zeros 0 ++
    ([56, 48, 40, 32, 24, 16, 8, 0].map (fun s => 8 * l / 2 ^ s % 256))

/-- Assemble the `i`-th big-endian 32-bit word of a 64-byte block. -/
def blockWord (block : List Nat) (i : Nat) : Nat :=
  block.getD (4 * i) 0 * 16777216 + block.getD (4 * i + 1) 0 * 65536 +
    block.getD (4 * i + 2) 0 * 256 + block.getD (4 * i + 3) 0

/-- Extend a reversed message-schedule prefix by `fuel` further words
(the new word is a function of the words 2, 7, 15 and 16 back). -/
def shaExtend (ws : List Nat) : Nat → List Nat
  | 0 => ws
  | fuel + 1 =>
      let w2 := ws.getD 1 0
      let w7 := ws.getD 6 0
      let w15 := ws.getD 14 0
      let w16 := ws.getD 15 0
      let s0 := (rotr 7 w15 ^^^ rotr 18 w15) ^^^ w15 / 2 ^ 3
      let s1 := (rotr 17 w2 ^^^ rotr 19 w2) ^^^ w2 / 2 ^ 10
      shaExtend (w32 (w16 + s0 + w7 + s1) :: ws) fuel

/-- The 64-word message schedule of one block, in order. -/
def shaSchedule (block : List Nat) : List Nat :=
  (shaExtend ((List.range 16).reverse.map (blockWord block)) 48).reverse

/-- One SHA-256 compression round with round word `kw = k + w`. -/
def shaRound (st : Sha256State) (kw : Nat) : Sha256State :=
  let S1 := (rotr 6 st.e ^^^ rotr 11 st.e) ^^^ rotr 25 st.e
  let ch := (st.e &&& st.f) ^^^ (wnot st.e &&& st.g)
  let temp1 := w32 (st.h + S1 + ch + kw)
  let S0 := (rotr 2 st.a ^^^ rotr 13 st.a) ^^^ rotr 22 st.a
  let maj := ((st.a &&& st.b) ^^^ (st.a &&& st.c)) ^^^ (st.b &&& st.c)
  let temp2 := w32 (S0 + maj)
  ⟨w32 (temp1 + temp2), st.a, st.b, st.c, w32 (st.d + temp1), st.e, st.f,
   st.g⟩

/-- Process one 64-byte block: 64 rounds, then add into the chaining
state. -/
def shaBlock (st : Sha256State) (block : List Nat) : Sha256State :=
  let ws := shaSchedule block
  let kws := (List.range 64).map (fun t => shaK.getD t 0 + ws.getD t 0)
  let r := kws.foldl shaRound st
  ⟨w32 (st.a + r.a), w32 (st.b + r.b), w32 (st.c + r.c), w32 (st.d + r.d),
   w32 (st.e + r.e), w32 (st.f + r.f), w32 (st.g + r.g), w32 (st.h + r.h)⟩

/-- SHA-256 of a byte list: the final eight-word state. -/
def sha256Words (msg : List Nat) : Sha256State :=
  let padded := shaPad msg
  let blocks := (List.range (padded.length / 64)).map
    (fun i => (padded.drop (64 * i)).take 64)
  blocks.foldl shaBlock shaInit

/-- The lowercase hexadecimal digit of `n % 16`. -/
def nibbleHex (n : Nat) : Char :=
  match n % 16 with
  | 0 => '0' | 1 => '1' | 2 => '2' | 3 => '3'
  | 4 => '4' | 5 => '5' | 6 => '6' | 7 => '7'
  | 8 => '8' | 9 => '9' | 10 => 'a' | 11 => 'b'
  | 12 => 'c' | 13 => 'd' | 14 => 'e' | _ => 'f'

/-- The eight lowercase hex digits of a 32-bit word, most significant
first. -/
def wordHex (w : Nat) : List Char :=
  [nibbleHex (w / 16 ^ 7), nibbleHex (w / 16 ^ 6), nibbleHex (w / 16 ^ 5),
   nibbleHex (w / 16 ^ 4), nibbleHex (w / 16 ^ 3), nibbleHex (w / 16 ^ 2),
   nibbleHex (w / 16), nibbleHex w]

/-- SHA-256 of a byte list as its 64-character lowercase hex digest:
model of `hashlib.sha256(bytes).hexdigest()`. -/
def sha256hex (msg : List Nat) : String :=
  let st := sha256Words msg
  String.mk (wordHex st.a ++ wordHex st.b ++ wordHex st.c ++ wordHex st.d ++
    wordHex st.e ++ wordHex st.f ++ wordHex st.g ++ wordHex st.h)

/-- SHA-256 hex digest of the UTF-8 bytes of a string: model of
`hashlib.sha256(s.encode("utf-8")).hexdigest()`. -/
def sha256hexOfString (s : String) : String :=
  sha256hex (utf8Bytes s)

/-! ## The signature generators (`YoudaoTranslator._generate_sign`,
`YoudaoOCR._generate_sign`) -/

/-- The digest-input of the signing scheme: the payload verbatim when its
length is at most 20 characters, else its first 10 characters, the decimal
string of its length, and its last 10 characters. Embeds the `input_str`
computation shared by both `_generate_sign` methods. -/
def signInput (q : String) : String :=
  if q.length ≤ 20 then q
  else
    String.mk (q.data.take 10) ++ toString q.length ++
      String.mk (q.data.drop (q.data.length - 10))

/-- The pre-hash signing string `app_key + input_str + salt + curtime +
app_secret` (the `sign_str` local of both `_generate_sign` methods). -/
def signingString (appKey appSecret q salt curtime : String) : String :=
  appKey ++ signInput q ++ salt ++ curtime ++ appSecret

/-- `YoudaoTranslator._generate_sign`: SHA-256 hex digest of the UTF-8
bytes of `app_key + input_str + salt + curtime + app_secret`. -/
def translatorGenerateSign (appKey appSecret query salt curtime : String) :
    String :=
  let inputStr :=
    if query.length ≤ 20 then query
    else
      String.mk (query.data.take 10) ++ toString query.length ++
        String.mk (query.data.drop (query.data.length - 10))
  sha256hexOfString (appKey ++ inputStr ++ salt ++ curtime ++ appSecret)

/-- `YoudaoOCR._generate_sign`: textually the same computation as the
translator's, applied to the base64-encoded image string. -/
def ocrGenerateSign (appKey appSecret imgBase64 salt curtime : String) :
    String :=
  let inputStr :=
    if imgBase64.length ≤ 20 then imgBase64
    else
      String.mk (imgBase64.data.take 10) ++ toString imgBase64.length ++
        String.mk (imgBase64.data.drop (imgBase64.data.length - 10))
  sha256hexOfString (appKey ++ inputStr ++ salt ++ curtime ++ appSecret)

/-! ## Python string stripping (`text.strip()`) -/

/-- Python's whitespace test `str.isspace` on a single character: the
characters `str.strip()` removes. -/
def pyIsSpace (c : Char) : Bool :=
  c ∈ ['\t', '\n', '\x0b', '\x0c', '\r', ' ',
       '\x1c', '\x1d', '\x1e', '\x1f', '\x85', '\xa0',
       ' ', ' ', ' ', ' ', ' ', ' ',
       ' ', ' ', ' ', ' ', ' ', ' ',
       ' ', ' ', ' ', ' ', '　']

/-- Python's `s.strip()` with no argument: remove leading and trailing
whitespace. -/
def pyStrip (s : String) : String :=
  String.mk (((s.data.dropWhile pyIsSpace).reverse.dropWhile
    pyIsSpace).reverse)

/-! ## The network as an explicit parameter -/

/-- Outcome of `requests.post(...)` followed by `response.json()`: a parsed
body, or one of the three exceptions the `try` blocks catch —
`requests.exceptions.Timeout`, any other `requests.exceptions.RequestException`
(carrying its rendered cause `str(e)`), or `json.JSONDecodeError`. -/
inductive NetOutcome (α : Type) where
  | ok (resp : α)
  | timeout
  | reqError (cause : String)
  | badJson
deriving DecidableEq

/-! ## The translation client (`YoudaoTranslator.translate`) -/

/-- The JSON body of a translation response, restricted to the keys the
code reads with `dict.get`; `none` is an absent key. -/
structure TransResponse where
  errorCode : Option String
  translation : Option (List String)
  query : Option String
  speakUrl : Option String
  tSpeakUrl : Option String
deriving DecidableEq

/-- The dictionary `translate` returns. The success branch alone carries
the `speakUrl` / `tSpeakUrl` keys, hence those fields are `Option`s
(`none` = key absent). -/
structure TransResult where
  success : Bool
  translation : String
  error : String
  query : String
  speakUrl : Option String
  tSpeakUrl : Option String
deriving DecidableEq

/-- The form parameters `translate` posts (the `params` dict, in insertion
order). -/
def translateParams (text fromLang toLang appKey salt sign curtime :
    String) : List (String × String) :=
  [("q", text), ("from", fromLang), ("to", toLang), ("appKey", appKey),
   ("salt", salt), ("sign", sign), ("signType", "v3"),
   ("curtime", curtime)]

/-- The static translation error-code table of
`YoudaoTranslator._get_error_message`, in source order. -/
def translatorErrorMessages : List (String × String) :=
  [("101", "缺少必填参数"), ("102", "不支持的语言类型"),
   ("103", "翻译文本过长"), ("108", "应用ID无效"),
   ("110", "无相关服务的有效应用"), ("111", "开发者账号无效"),
   ("202", "签名检验失败，请检查appKey和密钥"), ("206", "时间戳无效"),
   ("207", "重放请求"), ("401", "账户已欠费"), ("411", "访问频率受限")]

/-- `YoudaoTranslator._get_error_message`: table lookup with the generic
unknown-error fallback (`dict.get(code, "未知错误")`). -/
def translatorGetErrorMessage (errorCode : String) : String :=
  (translatorErrorMessages.lookup errorCode).getD "未知错误"

/-- `YoudaoTranslator.translate`. The nondeterministic environment reads —
the random salt (`uuid.uuid4()`), the timestamp (`time.time()`) and the
network — are explicit parameters; everything else follows the source
line by line. -/
def YoudaoTranslator.translate
    (appKey appSecret text fromLang toLang salt curtime : String)
    (net : List (String × String) → NetOutcome TransResponse) :
    TransResult :=
  if pyStrip text = "" then
    { success := false, translation := "", error := "翻译文本不能为空",
      query := text, speakUrl := none, tSpeakUrl := none }
  else
    let sign := translatorGenerateSign appKey appSecret text salt curtime
    match net (translateParams text fromLang toLang appKey salt sign
        curtime) with
    | NetOutcome.ok result =>
        let errorCode := result.errorCode.getD ""
        if errorCode = "0" then
          let translationList := result.translation.getD []
          let translation :=
            if translationList.isEmpty then ""
            else String.intercalate "\n" translationList
          { success := true, translation := translation, error := "",
            query := result.query.getD text,
            speakUrl := some (result.speakUrl.getD ""),
            tSpeakUrl := some (result.tSpeakUrl.getD "") }
        else
          { success := false, translation := "",
            error := "错误码 " ++ errorCode ++ ": " ++
              translatorGetErrorMessage errorCode,
            query := text, speakUrl := none, tSpeakUrl := none }
    | NetOutcome.timeout =>
        { success := false, translation := "",
          error := "请求超时，请检查网络连接", query := text,
          speakUrl := none, tSpeakUrl := none }
    | NetOutcome.reqError cause =>
        { success := false, translation := "",
          error := "网络请求失败: " ++ cause, query := text,
          speakUrl := none, tSpeakUrl := none }
    | NetOutcome.badJson =>
        { success := false, translation := "",
          error := "服务器返回数据格式错误", query := text,
          speakUrl := none, tSpeakUrl := none }

/-! ## Base64 (model of `base64.b64encode(image_data).decode("utf-8")`) -/

/-- The base64 alphabet character for `n % 64`. -/
def base64Char (n : Nat) : Char :=
  "ABCDEFGHIJKLMNOPQRSTUVWXYZabcdefghijklmnopqrstuvwxyz0123456789+/".data.getD
    (n % 64) 'A'

/-- One base64 output group for the 3-byte chunk starting at `3 * i`:
four alphabet characters, with `=` padding when fewer than three input
bytes remain. -/
def base64Group (bytes : List Nat) (i : Nat) : List Char :=
  let b0 := bytes.getD (3 * i) 0
  let b1 := bytes.getD (3 * i + 1) 0
  let b2 := bytes.getD (3 * i + 2) 0
  let rest := bytes.length - 3 * i
  [base64Char (b0 / 4), base64Char (b0 % 4 * 16 + b1 / 16),
   if rest ≥ 2 then base64Char (b1 % 16 * 4 + b2 / 64) else '=',
   if rest ≥ 3 then base64Char b2 else '=']

/-- Standard base64 encoding of a byte list, as a string: model of
`base64.b64encode(data).decode("utf-8")`. -/
def base64Encode (bytes : List Nat) : String :=
  String.mk (((List.range ((bytes.length + 2) / 3)).map
    (base64Group bytes)).flatten)

/-! ## The OCR client (`YoudaoOCR.recognize`) -/

/-- One line of an OCR region (`line.get("text", "")`). -/
structure OcrLine where
  text : Option String
deriving DecidableEq

/-- One region of an OCR result (`region.get("lines", [])`). -/
structure OcrRegion where
  lines : Option (List OcrLine)
deriving DecidableEq

/-- The `Result` object of an OCR response
(`result.get("Result", {}).get("regions", [])`). -/
structure OcrInner where
  regions : Option (List OcrRegion)
deriving DecidableEq

/-- The JSON body of an OCR response, restricted to the keys the code
reads. -/
structure OcrResponse where
  errorCode : Option String
  inner : Option OcrInner
deriving DecidableEq

/-- The dictionary `recognize` returns. -/
structure OcrRecResult where
  success : Bool
  text : String
  error : String
  regions : List OcrRegion
deriving DecidableEq

/-- The form parameters `recognize` posts (the `params` dict, in insertion
order). -/
def ocrParams (imgBase64 lang appKey salt sign curtime : String) :
    List (String × String) :=
  [("img", imgBase64), ("langType", lang), ("detectType", "10012"),
   ("imageType", "1"), ("appKey", appKey), ("salt", salt),
   ("sign", sign), ("signType", "v3"), ("curtime", curtime),
   ("docType", "json")]

/-- The static OCR error-code table of `YoudaoOCR._get_error_message`, in
source order. -/
def ocrErrorMessages : List (String × String) :=
  [("101", "缺少必填参数"), ("102", "不支持的语言类型"),
   ("108", "应用ID无效"), ("110", "无相关服务的有效应用"),
   ("111", "开发者账号无效"),
   ("202", "签名检验失败，请检查appKey和密钥"), ("206", "时间戳无效"),
   ("207", "重放请求"), ("401", "账户已欠费"), ("411", "访问频率受限"),
   ("1001", "无效的OCR类型"), ("1002", "不支持的OCR图片类型"),
   ("1003", "不支持的OCR语言类型"), ("1004", "识别图片过大"),
   ("1006", "图片不能为空"), ("1201", "图片base64解密失败"),
   ("1301", "OCR识别失败")]

/-- `YoudaoOCR._get_error_message`: table lookup with the generic
unknown-error fallback. -/
def ocrGetErrorMessage (errorCode : String) : String :=
  (ocrErrorMessages.lookup errorCode).getD "未知错误"

/-- `YoudaoOCR.recognize`. The image bytes arrive as a `List Nat`
(`image_data: bytes`); salt, timestamp and the network are explicit
parameters, as in `YoudaoTranslator.translate`. -/
def YoudaoOCR.recognize (appKey appSecret : String) (imageData : List Nat)
    (lang salt curtime : String)
    (net : List (String × String) → NetOutcome OcrResponse) :
    OcrRecResult :=
  let imgBase64 := base64Encode imageData
  let sign := ocrGenerateSign appKey appSecret imgBase64 salt curtime
  match net (ocrParams imgBase64 lang appKey salt sign curtime) with
  | NetOutcome.ok result =>
      let errorCode := result.errorCode.getD ""
      if errorCode = "0" then
        let regions := ((result.inner.map OcrInner.regions).getD
          none).getD []
        let textLines := regions.foldl (fun acc region =>
          (region.lines.getD []).foldl (fun acc2 line =>
            let lineText := line.text.getD ""
            if lineText = "" then acc2 else acc2 ++ [lineText]) acc) []
        let fullText := String.intercalate "\n" textLines
        { success := true, text := fullText, error := "",
          regions := regions }
      else
        { success := false, text := "",
          error := "错误码 " ++ errorCode ++ ": " ++
            ocrGetErrorMessage errorCode,
          regions := [] }
  | NetOutcome.timeout =>
      { success := false, text := "",
        error := "请求超时，请检查网络连接", regions := [] }
  | NetOutcome.reqError cause =>
      { success := false, text := "",
        error := "网络请求失败: " ++ cause, regions := [] }
  | NetOutcome.badJson =>
      { success := false, text := "",
        error := "服务器返回数据格式错误", regions := [] }

/-! ## The single-instance coordinator (`main.py`) -/

/-- The filesystem state the startup path touches: whether the exclusive
`flock` on `/tmp/yilai_translator.lock` is currently held by a live
process, and the contents of the two one-shot signal files (`none` = file
absent). The desktop autostart entry is abstracted to a flag. -/
structure SysState where
  lockHeld : Bool
  showSignal : Option String
  selSignal : Option String
  autostart : Bool
deriving DecidableEq

/-- The outcome of an invocation: run as the primary instance, or exit
with a code. -/
inductive StartOutcome where
  | primary
  | exited (code : Nat)
deriving DecidableEq

/-- `check_single_instance`: non-blocking exclusive acquisition
(`fcntl.flock(..., LOCK_EX | LOCK_NB)`) of the lock file — a handle when
the lock was free, `None` when it was already held. -/
def check_single_instance (s : SysState) : Option Unit × SysState :=
  if s.lockHeld then (none, s)
  else (some (), { s with lockHeld := true })

/-- `send_show_signal`: write the string `show` to the show-signal
file. -/
def send_show_signal (s : SysState) : SysState :=
  { s with showSignal := some "show" }

/-- `send_selection_translate_signal`: write the string `translate` to the
selection-signal file. -/
def send_selection_translate_signal (s : SysState) : SysState :=
  { s with selSignal := some "translate" }

/-- `main()`: acquire the single-instance lock; on failure send the show
signal and exit with code 0, on success proceed as the primary
instance. -/
def mainEntry (s : SysState) : StartOutcome × SysState :=
  match check_single_instance s with
  | (none, s1) => (StartOutcome.exited 0, send_show_signal s1)
  | (some _, s1) => (StartOutcome.primary, s1)

/-- The `if __name__ == "__main__"` dispatch: the recognized flags write a
signal or toggle autostart and exit 0; anything else (no flag, or an
unrecognized one) falls through to `main()`. `argv` is `sys.argv[1:]`. -/
def cliMain (argv : List String) (s : SysState) :
    StartOutcome × SysState :=
  match argv with
  | [] => mainEntry s
  | a :: _ =>
    if a = "--show" then (StartOutcome.exited 0, send_show_signal s)
    else if a = "--selection-translate" then
      (StartOutcome.exited 0, send_selection_translate_signal s)
    else if a = "--enable-autostart" then
      (StartOutcome.exited 0, { s with autostart := true })
    else if a = "--disable-autostart" then
      (StartOutcome.exited 0, { s with autostart := false })
    else if a = "--check-autostart" then (StartOutcome.exited 0, s)
    else mainEntry s

/-! ## Auxiliary definitions used by the statements -/

/-- A lowercase hexadecimal digit. -/
def isLowerHexDigit (c : Char) : Bool :=
  c ∈ "0123456789abcdef".data

/-- The region list a response carries
(`result.get("Result", {}).get("regions", [])`). -/
def respRegions (resp : OcrResponse) : List OcrRegion :=
  ((resp.inner.map OcrInner.regions).getD none).getD []

/-- Stated from the claim's words: the texts of every non-empty line of a
region, in line order. -/
def regionLineTexts (region : OcrRegion) : List String :=
  ((region.lines.getD []).map (fun l => l.text.getD "")).filter
    (fun t => t != "")

/-- Stated from the claim's words: every non-empty line's text across all
regions, region order then line order. -/
def allLineTexts (regions : List OcrRegion) : List String :=
  (regions.map regionLineTexts).flatten

/-- The response-handling tail of `recognize`, factored out of the
embedding so that `recognize` can be proved to be exactly this handler
applied to the network's outcome — it takes nothing but the outcome, so
in particular no property of the image can short-circuit it. -/
def ocrHandle (o : NetOutcome OcrResponse) : OcrRecResult :=
  match o with
  | NetOutcome.ok result =>
      let errorCode := result.errorCode.getD ""
      if errorCode = "0" then
        let regions := ((result.inner.map OcrInner.regions).getD
          none).getD []
        let textLines := regions.foldl (fun acc region =>
          (region.lines.getD []).foldl (fun acc2 line =>
            let lineText := line.text.getD ""
            if lineText = "" then acc2 else acc2 ++ [lineText]) acc) []
        let fullText := String.intercalate "\n" textLines
        { success := true, text := fullText, error := "",
          regions := regions }
      else
        { success := false, text := "",
          error := "错误码 " ++ errorCode ++ ": " ++
            ocrGetErrorMessage errorCode,
          regions := [] }
  | NetOutcome.timeout =>
      { success := false, text := "",
        error := "请求超时，请检查网络连接", regions := [] }
  | NetOutcome.reqError cause =>
      { success := false, text := "",
        error := "网络请求失败: " ++ cause, regions := [] }
  | NetOutcome.badJson =>
      { success := false, text := "",
        error := "服务器返回数据格式错误", regions := [] }

/-! ## Helper lemmas -/

/-- Concatenating a fixed string on the right is injective. -/
lemma string_append_cancel_right {a b : String} (r : String)
    (h : a ++ r = b ++ r) : a = b := by
  apply String.ext
  have h1 := congrArg String.data h
  rw [String.data_append, String.data_append] at h1
  exact List.append_cancel_right h1

/-- Concatenating a fixed string on the left is injective. -/
lemma string_append_cancel_left {a b : String} (p : String)
    (h : p ++ a = p ++ b) : a = b := by
  apply String.ext
  have h1 := congrArg String.data h
  rw [String.data_append, String.data_append] at h1
  exact List.append_cancel_left h1

/-- Every value of `nibbleHex` is a lowercase hex digit. -/
lemma nibbleHex_isLowerHex (n : Nat) :
    isLowerHexDigit (nibbleHex n) = true := by
  unfold nibbleHex
  split <;> decide

/-- Every character of a `wordHex` rendering is a lowercase hex digit. -/
lemma wordHex_isLowerHex (w : Nat) :
    ∀ c ∈ wordHex w, isLowerHexDigit c = true := by
  intro c hc
  simp only [wordHex, List.mem_cons, List.not_mem_nil, or_false] at hc
  rcases hc with rfl | rfl | rfl | rfl | rfl | rfl | rfl | rfl <;>
    exact nibbleHex_isLowerHex _

/-- A SHA-256 hex digest has 64 characters. -/
lemma sha256hex_length (m : List Nat) : (sha256hex m).length = 64 := by
  simp [sha256hex, String.length, wordHex]

/-- Every character of a SHA-256 hex digest is a lowercase hex digit. -/
lemma sha256hex_isLowerHex (m : List Nat) :
    ∀ c ∈ (sha256hex m).data, isLowerHexDigit c = true := by
  intro c hc
  simp only [sha256hex, List.mem_append] at hc
  rcases hc with ((((((h | h) | h) | h) | h) | h) | h) | h <;>
    exact wordHex_isLowerHex _ _ h

/-- Inner loop of the OCR text extraction, as a filter over the lines. -/
lemma ocr_lines_foldl (lines : List OcrLine) (acc : List String) :
    lines.foldl (fun acc2 line =>
        if line.text.getD "" = "" then acc2
        else acc2 ++ [line.text.getD ""]) acc =
      acc ++ regionLineTexts ⟨some lines⟩ := by
  induction lines generalizing acc with
  | nil => simp [regionLineTexts]
  | cons l ls ih =>
    rw [List.foldl_cons]
    by_cases h : l.text.getD "" = ""
    · rw [if_pos h, ih]
      have e : regionLineTexts ⟨some (l :: ls)⟩ =
          regionLineTexts ⟨some ls⟩ := by
        simp [regionLineTexts, List.filter_cons, h]
      rw [e]
    · rw [if_neg h, ih]
      have hb : (l.text.getD "" != "") = true := by
        simp [bne_iff_ne]
        exact h
      have e : regionLineTexts ⟨some (l :: ls)⟩ =
          l.text.getD "" :: regionLineTexts ⟨some ls⟩ := by
        simp [regionLineTexts, List.filter_cons, hb]
      rw [e]
      simp [List.append_assoc]

/-- Outer loop of the OCR text extraction, as a flattening over the
regions. -/
lemma ocr_regions_foldl (regions : List OcrRegion) (acc : List String) :
    regions.foldl (fun acc0 region =>
        (region.lines.getD []).foldl (fun acc2 line =>
          if line.text.getD "" = "" then acc2
          else acc2 ++ [line.text.getD ""]) acc0) acc =
      acc ++ allLineTexts regions := by
  induction regions generalizing acc with
  | nil => simp [allLineTexts]
  | cons r rs ih =>
    rw [List.foldl_cons, ocr_lines_foldl, ih]
    have e : regionLineTexts ⟨some (r.lines.getD [])⟩ =
        regionLineTexts r := by
      simp [regionLineTexts]
    rw [e]
    simp [allLineTexts, List.append_assoc]

/-! ## The claims -/

/-- C1: the digest-input is the payload verbatim when its length is at
most 20 characters, else first 10 characters + decimal length + last 10
characters; the signature is SHA-256 over the UTF-8 bytes of
`app_id + digest_input + salt + timestamp + secret` with no separators,
output as 64 lowercase hex characters; and the OCR signer computes
exactly the same function as the translation signer. -/
theorem sign_digest_input_correct
    (appKey appSecret q salt curtime : String) :
    translatorGenerateSign appKey appSecret q salt curtime =
      sha256hex (utf8Bytes (appKey ++ signInput q ++ salt ++ curtime ++
        appSecret))
    ∧ (q.length ≤ 20 → signInput q = q)
    ∧ (20 < q.length →
        signInput q = String.mk (q.data.take 10) ++ toString q.length ++
          String.mk (q.data.drop (q.data.length - 10)))
    ∧ ocrGenerateSign appKey appSecret q salt curtime =
        translatorGenerateSign appKey appSecret q salt curtime
    ∧ (translatorGenerateSign appKey appSecret q salt curtime).length = 64
    ∧ ∀ c ∈ (translatorGenerateSign appKey appSecret q salt curtime).data,
        isLowerHexDigit c = true := by
  refine ⟨rfl, ?_, ?_, rfl, sha256hex_length _, sha256hex_isLowerHex _⟩
  · intro h
    unfold signInput
    rw [if_pos h]
  · intro h
    unfold signInput
    rw [if_neg (by omega)]

/-- Witness for C1: the two digest-input branches at concrete payloads of
length 5 and 21. -/
theorem sign_digest_input_correct_witness :
    ("short".length ≤ 20 ∧ signInput "short" = "short") ∧
    (20 < "abcdefghijklmnopqrstu".length ∧
      signInput "abcdefghijklmnopqrstu" =
        String.mk ("abcdefghijklmnopqrstu".data.take 10) ++
          toString "abcdefghijklmnopqrstu".length ++
          String.mk ("abcdefghijklmnopqrstu".data.drop
            ("abcdefghijklmnopqrstu".data.length - 10))) :=
  ⟨⟨by decide, (sign_digest_input_correct "a" "b" "short" "c" "d").2.1
      (by decide)⟩,
   ⟨by decide, (sign_digest_input_correct "a" "b" "abcdefghijklmnopqrstu"
      "c" "d").2.2.1 (by decide)⟩⟩

/-- C6 (amended): the signature is a pure deterministic function of
(app id, text, salt, timestamp, secret) — it equals the SHA-256 hex
digest of the UTF-8 pre-hash signing string built from exactly those five
inputs, so equal inputs always give equal digests; changing exactly one
of app id, salt, timestamp or secret (the others fixed) always changes
the pre-hash signing string; but changing only the text need not change
the digest (see `sign_payload_collision`). -/
theorem sign_pure_function (appKey appSecret q salt curtime : String) :
    translatorGenerateSign appKey appSecret q salt curtime =
      sha256hexOfString (signingString appKey appSecret q salt curtime)
    ∧ (∀ ak2, signingString ak2 appSecret q salt curtime =
        signingString appKey appSecret q salt curtime → ak2 = appKey)
    ∧ (∀ salt2, signingString appKey appSecret q salt2 curtime =
        signingString appKey appSecret q salt curtime → salt2 = salt)
    ∧ (∀ ct2, signingString appKey appSecret q salt ct2 =
        signingString appKey appSecret q salt curtime → ct2 = curtime)
    ∧ (∀ sec2, signingString appKey sec2 q salt curtime =
        signingString appKey appSecret q salt curtime →
        sec2 = appSecret) := by
  refine ⟨rfl, ?_, ?_, ?_, ?_⟩
  · intro ak2 h
    have h1 := congrArg String.data h
    simp only [signingString, String.data_append, List.append_assoc] at h1
    exact String.ext (List.append_cancel_right h1)
  · intro salt2 h
    have h1 := congrArg String.data h
    simp only [signingString, String.data_append, List.append_assoc] at h1
    exact String.ext (List.append_cancel_right
      (List.append_cancel_left (List.append_cancel_left h1)))
  · intro ct2 h
    have h1 := congrArg String.data h
    simp only [signingString, String.data_append, List.append_assoc] at h1
    exact String.ext (List.append_cancel_right (List.append_cancel_left
      (List.append_cancel_left (List.append_cancel_left h1))))
  · intro sec2 h
    have h1 := congrArg String.data h
    simp only [signingString, String.data_append, List.append_assoc] at h1
    exact String.ext (List.append_cancel_left (List.append_cancel_left
      (List.append_cancel_left (List.append_cancel_left h1))))

/-- Counterexample to C6 as stated: two distinct payloads that differ in
exactly one input (the text) yet produce identical digests — both are 21
characters long and agree on their first 10 and last 10 characters, so
the length-truncated digest-input, the pre-hash signing string and hence
the SHA-256 digest coincide. -/
theorem sign_payload_collision :
    ("abcdefghijXklmnopqrst" : String) ≠ "abcdefghijYklmnopqrst"
    ∧ translatorGenerateSign "app" "secret" "abcdefghijXklmnopqrst" "salt"
        "100" =
      translatorGenerateSign "app" "secret" "abcdefghijYklmnopqrst" "salt"
        "100" := by
  refine ⟨by decide, ?_⟩
  have e : signingString "app" "secret" "abcdefghijXklmnopqrst" "salt"
      "100" =
      signingString "app" "secret" "abcdefghijYklmnopqrst" "salt" "100" :=
    by decide
  calc translatorGenerateSign "app" "secret" "abcdefghijXklmnopqrst"
        "salt" "100"
      = sha256hexOfString (signingString "app" "secret"
          "abcdefghijXklmnopqrst" "salt" "100") := rfl
    _ = sha256hexOfString (signingString "app" "secret"
          "abcdefghijYklmnopqrst" "salt" "100") := by rw [e]
    _ = translatorGenerateSign "app" "secret" "abcdefghijYklmnopqrst"
          "salt" "100" := rfl

/-- Witness for C6 (amended): the pre-hash injectivity conjuncts applied
at concrete inputs. -/
theorem sign_pure_function_witness :
    ("app" : String) = "app" ∧ ("salt" : String) = "salt" ∧
    ("100" : String) = "100" ∧ ("secret" : String) = "secret" :=
  ⟨(sign_pure_function "app" "secret" "q" "salt" "100").2.1 "app" rfl,
   (sign_pure_function "app" "secret" "q" "salt" "100").2.2.1 "salt" rfl,
   (sign_pure_function "app" "secret" "q" "salt" "100").2.2.2.1 "100" rfl,
   (sign_pure_function "app" "secret" "q" "salt" "100").2.2.2.2 "secret"
     rfl⟩

/-- C2: an empty or whitespace-only text is rejected before any use of
the network — for every network function the result is the same local
validation failure: success=false, empty translation, the empty-input
message, and the original text echoed in the query field. -/
theorem translate_rejects_blank
    (appKey appSecret text fromLang toLang salt curtime : String)
    (net : List (String × String) → NetOutcome TransResponse)
    (h : pyStrip text = "") :
    YoudaoTranslator.translate appKey appSecret text fromLang toLang salt
      curtime net =
      { success := false, translation := "", error := "翻译文本不能为空",
        query := text, speakUrl := none, tSpeakUrl := none } := by
  unfold YoudaoTranslator.translate
  rw [if_pos h]

/-- Witness for C2 at a whitespace-only text. -/
theorem translate_rejects_blank_witness :
    pyStrip "  \t\n " = "" ∧
    YoudaoTranslator.translate "k" "s" "  \t\n " "auto" "en" "salt" "100"
      (fun _ => NetOutcome.timeout) =
      { success := false, translation := "", error := "翻译文本不能为空",
        query := "  \t\n ", speakUrl := none, tSpeakUrl := none } :=
  ⟨by decide,
   translate_rejects_blank "k" "s" "  \t\n " "auto" "en" "salt" "100"
     (fun _ => NetOutcome.timeout) (by decide)⟩

/-- C3: a response body whose errorCode is the string "0" yields
success=true with the newline-joined translation list (empty when the
list is empty or the key absent), an empty error, the echoed query and
the two audio-URL fields. -/
theorem translate_success_code_zero
    (appKey appSecret text fromLang toLang salt curtime : String)
    (net : List (String × String) → NetOutcome TransResponse)
    (resp : TransResponse)
    (hblank : ¬ pyStrip text = "")
    (hnet : net (translateParams text fromLang toLang appKey salt
        (translatorGenerateSign appKey appSecret text salt curtime)
        curtime) = NetOutcome.ok resp)
    (hcode : resp.errorCode = some "0") :
    YoudaoTranslator.translate appKey appSecret text fromLang toLang salt
      curtime net =
      { success := true,
        translation := String.intercalate "\n" (resp.translation.getD []),
        error := "", query := resp.query.getD text,
        speakUrl := some (resp.speakUrl.getD ""),
        tSpeakUrl := some (resp.tSpeakUrl.getD "") } := by
  have hjoin : ∀ l : List String,
      (if l.isEmpty then "" else String.intercalate "\n" l) =
        String.intercalate "\n" l := by
    intro l
    cases l with
    | nil => rfl
    | cons a t => rfl
  simp only [YoudaoTranslator.translate, if_neg hblank, hnet, hcode,
    Option.getD_some, if_pos, hjoin]

/-- Witness for C3: errorCode "0" with translation `["你好"]` gives
success=true and translation `"你好"`. -/
theorem translate_success_code_zero_witness :
    (¬ pyStrip "hi" = "") ∧
    YoudaoTranslator.translate "k" "s" "hi" "auto" "zh-CHS" "salt" "100"
      (fun _ => NetOutcome.ok ⟨some "0", some ["你好"], none, none,
        none⟩) =
      { success := true, translation := "你好", error := "",
        query := "hi", speakUrl := some "", tSpeakUrl := some "" } := by
  refine ⟨by decide, ?_⟩
  have h := translate_success_code_zero "k" "s" "hi" "auto" "zh-CHS"
    "salt" "100" (fun _ => NetOutcome.ok ⟨some "0", some ["你好"], none,
      none, none⟩) ⟨some "0", some ["你好"], none, none, none⟩
    (by decide) rfl rfl
  rw [h]
  decide

/-- C4: a response body with any errorCode other than "0" yields
success=false with the message `错误码 {code}: {mapped message}` taken
from the static translation table, and a code absent from the table maps
to the generic unknown-error phrase. -/
theorem translate_nonzero_code
    (appKey appSecret text fromLang toLang salt curtime : String)
    (net : List (String × String) → NetOutcome TransResponse)
    (resp : TransResponse) (code : String)
    (hblank : ¬ pyStrip text = "")
    (hnet : net (translateParams text fromLang toLang appKey salt
        (translatorGenerateSign appKey appSecret text salt curtime)
        curtime) = NetOutcome.ok resp)
    (hcode : resp.errorCode = some code) (hnz : ¬ code = "0") :
    YoudaoTranslator.translate appKey appSecret text fromLang toLang salt
      curtime net =
      { success := false, translation := "",
        error := "错误码 " ++ code ++ ": " ++
          translatorGetErrorMessage code,
        query := text, speakUrl := none, tSpeakUrl := none }
    ∧ ∀ c, translatorErrorMessages.lookup c = none →
        translatorGetErrorMessage c = "未知错误" := by
  constructor
  · simp only [YoudaoTranslator.translate, if_neg hblank, hnet, hcode,
      Option.getD_some, if_neg hnz]
  · intro c hc
    unfold translatorGetErrorMessage
    rw [hc]
    rfl

/-- Witness for C4: the unknown code "9999" maps to the generic phrase
and produces the formatted error message. -/
theorem translate_nonzero_code_witness :
    (¬ pyStrip "hi" = "") ∧ (¬ ("9999" : String) = "0") ∧
    translatorErrorMessages.lookup "9999" = none ∧
    YoudaoTranslator.translate "k" "s" "hi" "auto" "en" "salt" "100"
      (fun _ => NetOutcome.ok ⟨some "9999", none, none, none, none⟩) =
      { success := false, translation := "",
        error := "错误码 9999: 未知错误", query := "hi",
        speakUrl := none, tSpeakUrl := none } := by
  refine ⟨by decide, by decide, by decide, ?_⟩
  have h := translate_nonzero_code "k" "s" "hi" "auto" "en" "salt" "100"
    (fun _ => NetOutcome.ok ⟨some "9999", none, none, none, none⟩)
    ⟨some "9999", none, none, none, none⟩ "9999" (by decide) rfl rfl
    (by decide)
  rw [h.1]
  decide

/-- C5: the three failure modes of `translate` each return success=false
with their messages — the distinct timeout message, the transport-failure
message carrying the underlying cause, and the malformed-data message —
and the three messages are pairwise distinguishable for every cause. The
embedding is a total function, so no outcome raises to the caller. -/
theorem translate_failure_modes
    (appKey appSecret text fromLang toLang salt curtime : String)
    (net : List (String × String) → NetOutcome TransResponse)
    (hblank : ¬ pyStrip text = "") :
    (net (translateParams text fromLang toLang appKey salt
        (translatorGenerateSign appKey appSecret text salt curtime)
        curtime) = NetOutcome.timeout →
      YoudaoTranslator.translate appKey appSecret text fromLang toLang
        salt curtime net =
        { success := false, translation := "",
          error := "请求超时，请检查网络连接", query := text,
          speakUrl := none, tSpeakUrl := none })
    ∧ (∀ cause, net (translateParams text fromLang toLang appKey salt
        (translatorGenerateSign appKey appSecret text salt curtime)
        curtime) = NetOutcome.reqError cause →
      YoudaoTranslator.translate appKey appSecret text fromLang toLang
        salt curtime net =
        { success := false, translation := "",
          error := "网络请求失败: " ++ cause, query := text,
          speakUrl := none, tSpeakUrl := none })
    ∧ (net (translateParams text fromLang toLang appKey salt
        (translatorGenerateSign appKey appSecret text salt curtime)
        curtime) = NetOutcome.badJson →
      YoudaoTranslator.translate appKey appSecret text fromLang toLang
        salt curtime net =
        { success := false, translation := "",
          error := "服务器返回数据格式错误", query := text,
          speakUrl := none, tSpeakUrl := none })
    ∧ (∀ cause : String,
        ("请求超时，请检查网络连接" : String) ≠
          "网络请求失败: " ++ cause)
    ∧ (∀ cause : String,
        ("服务器返回数据格式错误" : String) ≠
          "网络请求失败: " ++ cause)
    ∧ ("服务器返回数据格式错误" : String) ≠
        "请求超时，请检查网络连接" := by
  refine ⟨?_, ?_, ?_, ?_, ?_, by decide⟩
  · intro hnet
    simp only [YoudaoTranslator.translate, if_neg hblank, hnet]
  · intro cause hnet
    simp only [YoudaoTranslator.translate, if_neg hblank, hnet]
  · intro hnet
    simp only [YoudaoTranslator.translate, if_neg hblank, hnet]
  · intro cause h
    have h1 : ("请求超时，请检查网络连接" : String).data.headD ' ' =
        ("网络请求失败: " ++ cause).data.headD ' ' := by rw [h]
    rw [String.data_append] at h1
    rw [show ("网络请求失败: " : String).data =
        '网' :: ("络请求失败: " : String).data from by decide] at h1
    simp only [List.cons_append, List.headD_cons] at h1
    exact absurd h1 (by decide)
  · intro cause h
    have h1 : ("服务器返回数据格式错误" : String).data.headD ' ' =
        ("网络请求失败: " ++ cause).data.headD ' ' := by rw [h]
    rw [String.data_append] at h1
    rw [show ("网络请求失败: " : String).data =
        '网' :: ("络请求失败: " : String).data from by decide] at h1
    simp only [List.cons_append, List.headD_cons] at h1
    exact absurd h1 (by decide)

/-- Witness for C5: the three failure outcomes at concrete inputs, and
the timeout message differing from a concrete transport-failure
message. -/
theorem translate_failure_modes_witness :
    (¬ pyStrip "hi" = "") ∧
    YoudaoTranslator.translate "k" "s" "hi" "auto" "en" "salt" "100"
      (fun _ => NetOutcome.timeout) =
      { success := false, translation := "",
        error := "请求超时，请检查网络连接", query := "hi",
        speakUrl := none, tSpeakUrl := none } ∧
    YoudaoTranslator.translate "k" "s" "hi" "auto" "en" "salt" "100"
      (fun _ => NetOutcome.reqError "connection refused") =
      { success := false, translation := "",
        error := "网络请求失败: connection refused", query := "hi",
        speakUrl := none, tSpeakUrl := none } ∧
    YoudaoTranslator.translate "k" "s" "hi" "auto" "en" "salt" "100"
      (fun _ => NetOutcome.badJson) =
      { success := false, translation := "",
        error := "服务器返回数据格式错误", query := "hi",
        speakUrl := none, tSpeakUrl := none } ∧
    ("请求超时，请检查网络连接" : String) ≠
      "网络请求失败: " ++ "connection refused" := by
  refine ⟨by decide, ?_, ?_, ?_, ?_⟩
  · exact (translate_failure_modes "k" "s" "hi" "auto" "en" "salt" "100"
      (fun _ => NetOutcome.timeout) (by decide)).1 rfl
  · have h := (translate_failure_modes "k" "s" "hi" "auto" "en" "salt"
      "100" (fun _ => NetOutcome.reqError "connection refused")
      (by decide)).2.1 "connection refused" rfl
    rw [h]
    decide
  · exact (translate_failure_modes "k" "s" "hi" "auto" "en" "salt" "100"
      (fun _ => NetOutcome.badJson) (by decide)).2.2.1 rfl
  · exact (translate_failure_modes "k" "s" "hi" "auto" "en" "salt" "100"
      (fun _ => NetOutcome.badJson) (by decide)).2.2.2.1
      "connection refused"

/-- C7: an OCR response with errorCode "0" yields success=true, the
flattened text — every non-empty line's text across all regions, region
order then line order, joined by newline — and the raw region
structure. -/
theorem ocr_success_flatten
    (appKey appSecret : String) (img : List Nat)
    (lang salt curtime : String)
    (net : List (String × String) → NetOutcome OcrResponse)
    (resp : OcrResponse)
    (hnet : net (ocrParams (base64Encode img) lang appKey salt
        (ocrGenerateSign appKey appSecret (base64Encode img) salt curtime)
        curtime) = NetOutcome.ok resp)
    (hcode : resp.errorCode = some "0") :
    YoudaoOCR.recognize appKey appSecret img lang salt curtime net =
      { success := true,
        text := String.intercalate "\n" (allLineTexts (respRegions resp)),
        error := "", regions := respRegions resp } := by
  simp only [YoudaoOCR.recognize, hnet, hcode, Option.getD_some, if_true]
  rw [show ((resp.inner.map OcrInner.regions).getD none).getD [] =
    respRegions resp from rfl]
  rw [ocr_regions_foldl]
  rw [List.nil_append]

/-- Witness for C7: two regions with lines `["A","B"]` and `["C"]`
flatten to `"A\nB\nC"`. -/
theorem ocr_success_flatten_witness :
    YoudaoOCR.recognize "k" "s" [1, 2, 3] "auto" "salt" "100"
      (fun _ => NetOutcome.ok ⟨some "0", some ⟨some
        [⟨some [⟨some "A"⟩, ⟨some "B"⟩]⟩, ⟨some [⟨some "C"⟩]⟩]⟩⟩) =
      { success := true, text := "A\nB\nC", error := "",
        regions := [⟨some [⟨some "A"⟩, ⟨some "B"⟩]⟩,
          ⟨some [⟨some "C"⟩]⟩] } := by
  have h := ocr_success_flatten "k" "s" [1, 2, 3] "auto" "salt" "100"
    (fun _ => NetOutcome.ok ⟨some "0", some ⟨some
      [⟨some [⟨some "A"⟩, ⟨some "B"⟩]⟩, ⟨some [⟨some "C"⟩]⟩]⟩⟩)
    ⟨some "0", some ⟨some [⟨some [⟨some "A"⟩, ⟨some "B"⟩]⟩,
      ⟨some [⟨some "C"⟩]⟩]⟩⟩ rfl rfl
  rw [h]
  decide

/-- Counterexample to C8 as stated: the code "103" (translation text too
long) is mapped by the translation table but absent from the OCR table,
so the OCR table is not a superset of the translation table. -/
theorem ocr_table_missing_103 :
    translatorErrorMessages.lookup "103" = some "翻译文本过长" ∧
    ocrErrorMessages.lookup "103" = none ∧
    ocrGetErrorMessage "103" = "未知错误" ∧
    translatorGetErrorMessage "103" = "翻译文本过长" := by
  decide

/-- C8 (amended): every code mapped by the translation table except
"103" is also mapped by the OCR table; the OCR table additionally covers
the OCR-specific codes; and lookup of an absent code in either table
yields the generic unknown-error phrase. -/
theorem error_tables_superset_except_103 :
    ((translatorErrorMessages.map Prod.fst).all (fun c =>
      c == "103" || (ocrErrorMessages.lookup c).isSome) = true)
    ∧ (["1001", "1002", "1003", "1004", "1006", "1201", "1301"].all
        (fun c => (ocrErrorMessages.lookup c).isSome) = true)
    ∧ (∀ c, translatorErrorMessages.lookup c = none →
        translatorGetErrorMessage c = "未知错误")
    ∧ (∀ c, ocrErrorMessages.lookup c = none →
        ocrGetErrorMessage c = "未知错误") := by
  refine ⟨by decide, by decide, ?_, ?_⟩
  · intro c hc
    unfold translatorGetErrorMessage
    rw [hc]
    rfl
  · intro c hc
    unfold ocrGetErrorMessage
    rw [hc]
    rfl

/-- Witness for C8 (amended): the absent code "9999" maps to the generic
phrase in both tables. -/
theorem error_tables_superset_except_103_witness :
    translatorErrorMessages.lookup "9999" = none ∧
    ocrErrorMessages.lookup "9999" = none ∧
    translatorGetErrorMessage "9999" = "未知错误" ∧
    ocrGetErrorMessage "9999" = "未知错误" :=
  ⟨by decide, by decide,
   error_tables_superset_except_103.2.2.1 "9999" (by decide),
   error_tables_superset_except_103.2.2.2 "9999" (by decide)⟩

/-- C9: with the lock free, startup acquires it and proceeds as the
primary instance; with the lock held, acquisition fails (the embedding of
the non-blocking `flock` is a total function, so failure is immediate),
the show-signal file is written with content exactly "show", and the
invocation exits with code 0 — the lock stays with the original holder,
so no second primary starts; the `--selection-translate` flag writes the
selection-signal file with content exactly "translate" and exits with
code 0. -/
theorem single_instance_lock (s : SysState) :
    (s.lockHeld = false →
      mainEntry s = (StartOutcome.primary, { s with lockHeld := true }))
    ∧ (s.lockHeld = true →
      mainEntry s = (StartOutcome.exited 0,
        { s with showSignal := some "show" }))
    ∧ (∀ s2 : SysState, cliMain ["--selection-translate"] s2 =
        (StartOutcome.exited 0, { s2 with selSignal := some "translate" }))
    ∧ (∀ s2 : SysState, cliMain [] s2 = mainEntry s2) := by
  refine ⟨?_, ?_, fun s2 => rfl, fun s2 => rfl⟩
  · intro h
    simp [mainEntry, check_single_instance, h, send_show_signal]
  · intro h
    simp [mainEntry, check_single_instance, h, send_show_signal]

/-- Witness for C9: acquisition from a free lock, the second invocation
against a held lock, and the selection-translate flag, at concrete
states. -/
theorem single_instance_lock_witness :
    mainEntry ⟨false, none, none, false⟩ =
      (StartOutcome.primary, ⟨true, none, none, false⟩) ∧
    mainEntry ⟨true, none, none, false⟩ =
      (StartOutcome.exited 0, ⟨true, some "show", none, false⟩) ∧
    cliMain ["--selection-translate"] ⟨true, none, none, false⟩ =
      (StartOutcome.exited 0, ⟨true, none, some "translate", false⟩) :=
  ⟨(single_instance_lock ⟨false, none, none, false⟩).1 rfl,
   (single_instance_lock ⟨true, none, none, false⟩).2.1 rfl,
   (single_instance_lock ⟨false, none, none, false⟩).2.2.1
     ⟨true, none, none, false⟩⟩

/-- C10: `recognize` performs no local input validation — for every byte
string, the empty one included, its result is exactly the response
handler applied to the network's answer to the request it always issues,
whose parameters carry the base64 encoding of the (possibly empty) image
and the signature computed over that base64 string. -/
theorem ocr_no_local_validation
    (appKey appSecret : String) (img : List Nat)
    (lang salt curtime : String)
    (net : List (String × String) → NetOutcome OcrResponse) :
    YoudaoOCR.recognize appKey appSecret img lang salt curtime net =
      ocrHandle (net (ocrParams (base64Encode img) lang appKey salt
        (ocrGenerateSign appKey appSecret (base64Encode img) salt curtime)
        curtime))
    ∧ ("img", base64Encode img) ∈ ocrParams (base64Encode img) lang
        appKey salt (ocrGenerateSign appKey appSecret (base64Encode img)
          salt curtime) curtime
    ∧ ("sign", ocrGenerateSign appKey appSecret (base64Encode img) salt
        curtime) ∈ ocrParams (base64Encode img) lang appKey salt
          (ocrGenerateSign appKey appSecret (base64Encode img) salt
            curtime) curtime := by
  refine ⟨?_, by simp [ocrParams], by simp [ocrParams]⟩
  cases h : net (ocrParams (base64Encode img) lang appKey salt
      (ocrGenerateSign appKey appSecret (base64Encode img) salt curtime)
      curtime) <;>
    simp only [YoudaoOCR.recognize, ocrHandle, h]
